import Mathlib

/-!
Shallow embedding of the chunked upload pipeline of this repository
(src/services/drive.ts: uploadFileToScript, blobToBase64, downloadRenamedFile;
src/components/SubmissionForm.tsx: the failure branch of handleSubmit).

The embedding models the source faithfully:
  - a browser File is a byte length, a declared media type, and a byte lookup;
  - network effects are resolved by an explicit environment (the init fetch
    result and, per chunk index and attempt number, the outcome of the fetch);
  - the run of uploadFileToScript is a trace of observable events (requests
    with their JSON payloads as ordered key/value lists, backoff sleeps,
    progress callbacks) together with the settled result of the promise.
-/

/-- JS Math.round for a nonnegative finite argument: floor of q + 1/2
(rounds half away from zero, which for q at least 0 is half up).
The source computes the argument in binary floating point; the exact
rational model agrees at every input used in this development. -/
def jsRound (q : ℚ) : ℤ := (q + 1 / 2).floor

/-- Chunk size constant of uploadFileToScript: 5 * 1024 * 1024 bytes. -/
def CHUNK_SIZE : Nat := 5 * 1024 * 1024

/-- Model of a browser File: size in bytes, declared MIME type, and the byte
at each offset. Mirrors the fields of File used by the source (size, type,
slice). -/
structure JSFile where
  size : Nat
  type : String
  byteAt : Nat → Nat

/-- file.slice(start, stop): the bytes at offsets start..stop-1. -/
def JSFile.slice (f : JSFile) (start stop : Nat) : List Nat :=
  (List.range (stop - start)).map (fun k => f.byteAt (start + k))

/-- totalChunks = Math.ceil(file.size / CHUNK_SIZE), as in drive.ts line 46.
For natural numbers, ceiling division is (size + CHUNK_SIZE - 1) / CHUNK_SIZE. -/
def totalChunks (fileSize : Nat) : Nat := (fileSize + CHUNK_SIZE - 1) / CHUNK_SIZE

/-- start = i * CHUNK_SIZE (drive.ts line 74). -/
def chunkStart (i : Nat) : Nat := i * CHUNK_SIZE

/-- end = Math.min(file.size, start + CHUNK_SIZE) (drive.ts line 75). -/
def chunkEnd (fileSize i : Nat) : Nat := min fileSize (chunkStart i + CHUNK_SIZE)

/-- The base64 alphabet. -/
def base64Chars : List Char :=
  "ABCDEFGHIJKLMNOPQRSTUVWXYZabcdefghijklmnopqrstuvwxyz0123456789+/".toList

/-- Character for a 6-bit group. -/
def b64char (n : Nat) : Char := base64Chars.getD n 'A'

/-- Standard base64 of a byte list, with padding. -/
def base64Encode : List Nat → String
  | b1 :: b2 :: b3 :: rest =>
      let n := b1 * 65536 + b2 * 256 + b3
      String.mk [b64char (n / 262144 % 64), b64char (n / 4096 % 64),
                 b64char (n / 64 % 64), b64char (n % 64)] ++ base64Encode rest
  | [b1, b2] =>
      let n := b1 * 1024 + b2 * 4
      String.mk [b64char (n / 4096 % 64), b64char (n / 64 % 64), b64char (n % 64)] ++ "="
  | [b1] =>
      let n := b1 * 16
      String.mk [b64char (n / 64 % 64), b64char (n % 64)] ++ "=="
  | [] => ""

/-- blobToBase64 of drive.ts: reads the blob as a data URL and strips the
prefix before the comma, leaving exactly the base64 encoding of the bytes. -/
def blobToBase64 (bytes : List Nat) : String := base64Encode bytes

/-- JS s.includes(pattern) over explicit character lists. -/
def charSeqContains (pat : List Char) : List Char → Bool
  | [] => pat.isEmpty
  | c :: rest => pat.isPrefixOf (c :: rest) || charSeqContains pat rest

/-- JS String.prototype.includes. -/
def includes (s pat : String) : Bool := charSeqContains pat.toList s.toList

/-- Parsed JSON response body, restricted to the fields the source reads:
status, message, url. A missing or falsy field is modelled as none. -/
structure RespBody where
  status : String
  message : Option String
  url : Option String
deriving DecidableEq

instance {ε α : Type} [DecidableEq ε] [DecidableEq α] : DecidableEq (Except ε α) := fun
  | .error a, .error b =>
      if h : a = b then .isTrue (by rw [h]) else .isFalse (by intro he; cases he; exact h rfl)
  | .error _, .ok _ => .isFalse (by intro h; cases h)
  | .ok _, .error _ => .isFalse (by intro h; cases h)
  | .ok a, .ok b =>
      if h : a = b then .isTrue (by rw [h]) else .isFalse (by intro he; cases he; exact h rfl)

/-- Outcome of one chunk fetch: the fetch promise rejects, or a response
arrives with its ok flag, HTTP status code, and the result of response.json()
(error means the body failed to parse). -/
inductive AttemptOutcome where
  | netThrow (msg : String)
  | response (ok : Bool) (code : Nat) (body : Except String RespBody)
deriving DecidableEq

/-- Result of the init fetch: content type header and the result of
response.json(). -/
structure InitResponse where
  contentType : Option String
  jsonBody : Except String RespBody
deriving DecidableEq

/-- Environment resolving every network effect of one session: the init
fetch (error means the fetch promise rejected) and, for chunk index i and
attempt number a (0-based), the outcome of that fetch. -/
structure Env where
  initFetch : Except String InitResponse
  attempt : Nat → Nat → AttemptOutcome

/-- Observable events of a session, in order: the init request with its
payload, a chunk request with its payload, a backoff sleep in milliseconds,
and an invocation of the onProgress callback. -/
inductive Event where
  | initReq (payload : List (String × String))
  | chunkReq (i : Nat) (payload : List (String × String))
  | sleep (ms : Nat)
  | progress (p : Nat)
deriving DecidableEq

/-- The init request body of drive.ts lines 50-56, as an ordered key/value
list. -/
def initPayload (renamedFileName mimeType : String) : List (String × String) :=
  [("action", "init"), ("filename", renamedFileName), ("mimeType", mimeType)]

/-- The chunk request body of drive.ts lines 85-90, as an ordered key/value
list: action, uploadUrl, base64, range. -/
def chunkPayload (uploadUrl base64 range : String) : List (String × String) :=
  [("action", "chunk"), ("uploadUrl", uploadUrl), ("base64", base64), ("range", range)]

/-- The Content-Range string of drive.ts line 83:
bytes start-(end-1)/fileSize, with an inclusive end offset. -/
def rangeHeader (start stop fileSize : Nat) : String :=
  "bytes " ++ toString start ++ "-" ++ toString (stop - 1) ++ "/" ++ toString fileSize

/-- The try block of one chunk attempt (drive.ts lines 98-110): a rejected
fetch throws; a non-ok response throws HTTP Error: code; a body that fails
to parse throws; a parsed body with status error throws its message; any
other parsed body succeeds. Returns the thrown error message, or none on
success. -/
def tryAttempt : AttemptOutcome → Option String
  | .netThrow m => some m
  | .response ok code body =>
      if !ok then some ("HTTP Error: " ++ toString code)
      else
        match body with
        | .error m => some m
        | .ok j => if j.status = "error" then some (j.message.getD "") else none

/-- The retry while loop of drive.ts lines 93-117 for one chunk: retries
counts attempts remaining (initially 3); attemptIdx numbers attempts from 0;
lastError is the last caught error. Returns the events of the loop and
none on success or the surfaced error (drive.ts lines 119-121: lastError,
defaulting to Upload failed after retries when no attempt ran). -/
def retryLoop (env : Env) (i : Nat) (payload : List (String × String)) :
    Nat → Nat → Option String → List Event × Option String
  | 0, _, lastError => ([], some (lastError.getD "Upload failed after retries"))
  | r + 1, attemptIdx, _ =>
      match tryAttempt (env.attempt i attemptIdx) with
      | none => ([Event.chunkReq i payload], none)
      | some err =>
          if r = 0 then ([Event.chunkReq i payload], some err)
          else
            let rest := retryLoop env i payload r (attemptIdx + 1) (some err)
            (Event.chunkReq i payload :: Event.sleep 2000 :: rest.1, rest.2)

/-- The progress value reported after chunk i of n chunks, drive.ts line 125:
Math.round((i+1)/n*100). For natural i and positive n this rounding is the
natural division (200*(i+1) + n) / (2*n); theorem progressOf_eq_jsRound below
proves this form equal to jsRound applied to the exact rational. -/
def progressOf (i n : Nat) : Nat := (200 * (i + 1) + n) / (2 * n)

/-- The chunk for-loop of drive.ts lines 73-130, processing chunk indices
i, i+1, ... while rem chunks remain (the loop is entered with i = 0 and
rem = totalChunks). Each iteration slices and encodes the chunk, builds the
payload, runs the retry loop, throws the surfaced error on failure, and on
success reports progress Math.round((i+1)/n*100) and continues. -/
def chunkLoop (env : Env) (file : JSFile) (uploadUrl : String) (n : Nat) :
    Nat → Nat → List Event × Except String Unit
  | 0, _ => ([], .ok ())
  | rem + 1, i =>
      let start := chunkStart i
      let stop := chunkEnd file.size i
      let base64 := blobToBase64 (file.slice start stop)
      let payload := chunkPayload uploadUrl base64 (rangeHeader start stop file.size)
      let attempt := retryLoop env i payload 3 0 none
      match attempt.2 with
      | some err => (attempt.1, .error err)
      | none =>
          let rest := chunkLoop env file uploadUrl n rem (i + 1)
          (attempt.1 ++ Event.progress (progressOf i n) :: rest.1, rest.2)

/-- The content type guard of drive.ts lines 59-63: the header is present
and includes text/html. -/
def ctHtml : Option String → Bool
  | none => false
  | some ct => includes ct "text/html"

/-- uploadFileToScript of drive.ts lines 36-134, as a function of the
environment: performs the init request; fails on a rejected init fetch; on
an HTML content type fails with the permission error before reading the
body; fails when the parsed init body lacks status success or a url; then
runs the chunk loop with the captured upload url. The ok result models the
resolved value with status success; an error result models a rejected
promise carrying that message. Progress events model the onProgress
callback of a caller that supplies one. -/
def uploadFileToScript (env : Env) (file : JSFile) (renamedFileName : String) :
    List Event × Except String Unit :=
  let evInit := Event.initReq (initPayload renamedFileName file.type)
  match env.initFetch with
  | .error m => ([evInit], .error m)
  | .ok resp =>
      if ctHtml resp.contentType then
        ([evInit], .error "Script Permission Error: Received HTML instead of JSON. Ensure script is deployed to \x27Anyone\x27.")
      else
        match resp.jsonBody with
        | .error m => ([evInit], .error m)
        | .ok initJson =>
            if initJson.status ≠ "success" then
              ([evInit], .error (initJson.message.getD "Failed to initialize upload session"))
            else
              match initJson.url with
              | none =>
                  ([evInit], .error (initJson.message.getD "Failed to initialize upload session"))
              | some uploadUrl =>
                  let run := chunkLoop env file uploadUrl (totalChunks file.size)
                    (totalChunks file.size) 0
                  (evInit :: run.1, run.2)

/-- Test for a chunk request event with chunk index j. -/
def isChunkReqFor (j : Nat) : Event → Bool
  | .chunkReq i _ => i == j
  | _ => false

/-- Test for a chunk request event of any index. -/
def isChunkReq : Event → Bool
  | .chunkReq _ _ => true
  | _ => false

/-- Projection of a progress event to its reported value. -/
def progressValue : Event → Option Nat
  | .progress p => some p
  | _ => none

/-- Number of chunk requests for chunk index j in a trace. -/
def attemptCount (j : Nat) (evs : List Event) : Nat :=
  (evs.filter (isChunkReqFor j)).length

/-- Number of chunk requests of any index in a trace. -/
def countChunkReqs (evs : List Event) : Nat :=
  (evs.filter isChunkReq).length

/-- The reported progress values of a trace, in order. -/
def progressEvents (evs : List Event) : List Nat :=
  evs.filterMap progressValue

/-- The payload built by the chunk loop for chunk index i of a file,
given the captured upload url: exactly the let bindings of drive.ts
lines 74-90. -/
def chunkPayloadAt (file : JSFile) (u : String) (i : Nat) : List (String × String) :=
  chunkPayload u (blobToBase64 (file.slice (chunkStart i) (chunkEnd file.size i)))
    (rangeHeader (chunkStart i) (chunkEnd file.size i) file.size)

/-- Result of the failure branch of handleSubmit in SubmissionForm.tsx
(lines 274-300): the filename handed to the fallback downloadRenamedFile
call and the status message displayed to the user. -/
structure FailureHandling where
  downloadFilename : String
  displayedMessage : String
deriving DecidableEq

/-- The catch block of handleSubmit in SubmissionForm.tsx: from the error
message, pick a display label and a detailed message by substring detection,
always invoke the fallback download with the renamed filename, and display
the label followed by the detail. -/
def handleUploadFailure (errorMsg renamedFile : String) : FailureHandling :=
  let pick :=
    if includes errorMsg "Failed to fetch" || includes errorMsg "NetworkError" then
      ("Connection Error",
       "Could not connect to Google Drive. Check internet or Script permissions.")
    else if includes errorMsg "Drive Init Failed" || includes errorMsg "Auth Token Invalid"
        || includes errorMsg "Exception" || includes errorMsg "Permission"
        || includes errorMsg "Folder Error" || includes errorMsg "Folder ID" then
      ("Script Configuration Error", errorMsg)
    else
      (errorMsg, "Auto-upload failed. File downloaded for manual submission.")
  { downloadFilename := renamedFile, displayedMessage := pick.1 ++ ". " ++ pick.2 }

/-- A one byte file fixture. -/
def file1 : JSFile := { size := 1, type := "video/mp4", byteAt := fun _ => 0 }

/-- A 250 chunk file fixture: size is exactly 250 * CHUNK_SIZE bytes. -/
def bigFile : JSFile := { size := 1310720000, type := "video/mp4", byteAt := fun _ => 0 }

/-- A zero byte file fixture. -/
def zeroFile : JSFile := { size := 0, type := "video/mp4", byteAt := fun _ => 0 }

/-- An init response fixture: JSON content type, status success, url U. -/
def respOk : InitResponse :=
  { contentType := some "application/json",
    jsonBody := .ok { status := "success", message := none, url := some "U" } }

/-- An environment where init succeeds and every chunk attempt succeeds. -/
def envOk : Env :=
  { initFetch := .ok respOk,
    attempt := fun _ _ =>
      .response true 200 (.ok { status := "success", message := none, url := none }) }

/-- An environment where init succeeds, the first attempt of every chunk
returns an explicit status error body, and later attempts succeed. -/
def envC1 : Env :=
  { initFetch := .ok respOk,
    attempt := fun _ a =>
      if a = 0 then
        .response true 200 (.ok { status := "error", message := some "rejected", url := none })
      else
        .response true 200 (.ok { status := "success", message := none, url := none }) }

/-- An environment where init succeeds and every chunk attempt rejects at
the network level with a distinct message per attempt number. -/
def envFail : Env :=
  { initFetch := .ok respOk,
    attempt := fun _ a =>
      .netThrow (if a = 0 then "err0" else if a = 1 then "err1" else "err2") }

/-- The Rat.floor used by jsRound agrees with the mathematical floor. -/
theorem jsRound_eq_floor (q : ℚ) : jsRound q = ⌊q + 1 / 2⌋ := by
  rw [jsRound, Rat.floor_def', ← Rat.floor_def]

/-- Fidelity of the natural-number progress formula: progressOf i n is
exactly Math.round((i+1)/n*100) computed in exact rational arithmetic
(including n = 0, where both sides are 0 under the division-by-zero
conventions of ℚ and ℕ). -/
theorem progressOf_eq_jsRound (i n : Nat) :
    progressOf i n = (jsRound ((i + 1 : ℚ) / n * 100)).toNat := by
  rw [jsRound_eq_floor]
  rcases Nat.eq_zero_or_pos n with hn | hn
  · subst hn
    norm_num [progressOf]
  · have harg : ((i : ℚ) + 1) / (n : ℚ) * 100 + 1 / 2
        = ((200 * (i + 1) + n : ℕ) : ℚ) / ((2 * n : ℕ) : ℚ) := by
      have hn0 : (n : ℚ) ≠ 0 := Nat.cast_ne_zero.mpr hn.ne'
      field_simp
      ring
    rw [harg, Rat.floor_natCast_div_natCast, progressOf, ← Int.natCast_div,
      Int.toNat_natCast]

/-- Unfolding of the retry loop on a successful attempt. -/
theorem retryLoop_ok (env : Env) (i : Nat) (p : List (String × String)) (r a : Nat)
    (l : Option String) (h : tryAttempt (env.attempt i a) = none) :
    retryLoop env i p (r + 1) a l = ([Event.chunkReq i p], none) := by
  simp only [retryLoop, h]

/-- Unfolding of the retry loop on a failed final attempt. -/
theorem retryLoop_fail_last (env : Env) (i : Nat) (p : List (String × String)) (a : Nat)
    (l : Option String) (e : String) (h : tryAttempt (env.attempt i a) = some e) :
    retryLoop env i p (0 + 1) a l = ([Event.chunkReq i p], some e) := by
  simp [retryLoop, h]

/-- Unfolding of the retry loop on a failed attempt with retries left:
the identical payload is resubmitted after a 2000 ms sleep. -/
theorem retryLoop_fail_cont (env : Env) (i : Nat) (p : List (String × String)) (r a : Nat)
    (l : Option String) (e : String) (h : tryAttempt (env.attempt i a) = some e)
    (hr : r ≠ 0) :
    retryLoop env i p (r + 1) a l
      = (Event.chunkReq i p :: Event.sleep 2000 :: (retryLoop env i p r (a + 1) (some e)).1,
         (retryLoop env i p r (a + 1) (some e)).2) := by
  simp only [retryLoop, h, if_neg hr]

/-- Every event emitted by the retry loop is a request for this chunk with
this payload, or the fixed backoff sleep. -/
theorem retryLoop_events_shape (env : Env) (i : Nat) (p : List (String × String)) :
    ∀ r a l ev, ev ∈ (retryLoop env i p r a l).1 →
      ev = Event.chunkReq i p ∨ ev = Event.sleep 2000 := by
  intro r
  induction r with
  | zero => intro a l ev hev; simp [retryLoop] at hev
  | succ r ih =>
      intro a l ev hev
      rcases hok : tryAttempt (env.attempt i a) with _ | e
      · rw [retryLoop_ok env i p r a l hok] at hev
        simp at hev
        exact Or.inl hev
      · rcases Nat.eq_zero_or_pos r with hr | hr
        · subst hr
          rw [retryLoop_fail_last env i p a l e hok] at hev
          simp at hev
          exact Or.inl hev
        · rw [retryLoop_fail_cont env i p r a l e hok hr.ne'] at hev
          simp only [List.mem_cons] at hev
          rcases hev with h1 | h1 | h1
          · exact Or.inl h1
          · exact Or.inr h1
          · exact ih (a + 1) (some e) ev h1

/-- Unfolding of the chunk loop with at least one chunk remaining. -/
theorem chunkLoop_succ (env : Env) (file : JSFile) (u : String) (n rem i : Nat) :
    chunkLoop env file u n (rem + 1) i
      = (match (retryLoop env i (chunkPayloadAt file u i) 3 0 none).2 with
         | some err => ((retryLoop env i (chunkPayloadAt file u i) 3 0 none).1, .error err)
         | none =>
             ((retryLoop env i (chunkPayloadAt file u i) 3 0 none).1
                ++ Event.progress (progressOf i n) :: (chunkLoop env file u n rem (i + 1)).1,
              (chunkLoop env file u n rem (i + 1)).2)) := rfl

/-- attemptCount distributes over list append. -/
theorem attemptCount_append (j : Nat) (a b : List Event) :
    attemptCount j (a ++ b) = attemptCount j a + attemptCount j b := by
  simp [attemptCount, List.filter_append]

/-- A trace with no chunk request for index j counts zero attempts for j. -/
theorem attemptCount_eq_zero_of_shape (j : Nat) (evs : List Event)
    (h : ∀ ev ∈ evs, (∃ p, ev = Event.chunkReq j p) → False) :
    attemptCount j evs = 0 := by
  simp only [attemptCount, List.length_eq_zero]
  rw [List.filter_eq_nil_iff]
  intro ev hev
  cases ev with
  | initReq p => simp [isChunkReqFor]
  | chunkReq i p =>
      simp only [isChunkReqFor, beq_iff_eq]
      intro hij
      exact h _ hev ⟨p, by rw [hij]⟩
  | sleep ms => simp [isChunkReqFor]
  | progress p => simp [isChunkReqFor]

/-- The retry loop makes at most r attempts. -/
theorem attemptCount_retryLoop_le (env : Env) (i : Nat) (p : List (String × String)) :
    ∀ r a l j, attemptCount j (retryLoop env i p r a l).1 ≤ r := by
  intro r
  induction r with
  | zero => intro a l j; simp [retryLoop, attemptCount]
  | succ r ih =>
      intro a l j
      rcases hok : tryAttempt (env.attempt i a) with _ | e
      · rw [retryLoop_ok env i p r a l hok]
        simp only [attemptCount, List.filter, List.length]
        split <;> simp
      · rcases Nat.eq_zero_or_pos r with hr | hr
        · subst hr
          rw [retryLoop_fail_last env i p a l e hok]
          simp only [attemptCount, List.filter, List.length]
          split <;> simp
        · rw [retryLoop_fail_cont env i p r a l e hok hr.ne']
          have hc : attemptCount j (Event.chunkReq i p :: Event.sleep 2000 ::
              (retryLoop env i p r (a + 1) (some e)).1)
              = attemptCount j [Event.chunkReq i p, Event.sleep 2000]
                + attemptCount j (retryLoop env i p r (a + 1) (some e)).1 := by
            simpa using attemptCount_append j [Event.chunkReq i p, Event.sleep 2000]
              (retryLoop env i p r (a + 1) (some e)).1
          rw [hc]
          have h1 : attemptCount j [Event.chunkReq i p, Event.sleep 2000] ≤ 1 := by
            simp only [attemptCount, List.filter, isChunkReqFor]
            split <;> simp
          have h2 := ih (a + 1) (some e) j
          omega

/-- The retry loop for chunk i makes no requests for another chunk. -/
theorem attemptCount_retryLoop_ne (env : Env) (i : Nat) (p : List (String × String))
    (r a : Nat) (l : Option String) (j : Nat) (hj : j ≠ i) :
    attemptCount j (retryLoop env i p r a l).1 = 0 := by
  apply attemptCount_eq_zero_of_shape
  intro ev hev hex
  rcases hex with ⟨q, hq⟩
  rcases retryLoop_events_shape env i p r a l ev hev with h1 | h1 <;> rw [h1] at hq
  · cases hq; exact hj rfl
  · cases hq

/-- The chunk loop starting at index i makes no requests for chunks before i. -/
theorem attemptCount_chunkLoop_lt (env : Env) (file : JSFile) (u : String) (n : Nat) :
    ∀ rem i j, j < i → attemptCount j (chunkLoop env file u n rem i).1 = 0 := by
  intro rem
  induction rem with
  | zero => intro i j hj; simp [chunkLoop, attemptCount]
  | succ rem ih =>
      intro i j hj
      rw [chunkLoop_succ]
      rcases hres : (retryLoop env i (chunkPayloadAt file u i) 3 0 none).2 with _ | err
      · simp only [hres]
        have hc := attemptCount_append j (retryLoop env i (chunkPayloadAt file u i) 3 0 none).1
          (Event.progress (progressOf i n) :: (chunkLoop env file u n rem (i + 1)).1)
        rw [hc]
        have h1 := attemptCount_retryLoop_ne env i (chunkPayloadAt file u i) 3 0 none j
          (Nat.ne_of_lt hj)
        have h2 : attemptCount j (Event.progress (progressOf i n)
            :: (chunkLoop env file u n rem (i + 1)).1)
            = attemptCount j (chunkLoop env file u n rem (i + 1)).1 := by
          simp [attemptCount, List.filter, isChunkReqFor]
        have h3 := ih (i + 1) j (Nat.lt_succ_of_lt hj)
        omega
      · simp only [hres]
        exact attemptCount_retryLoop_ne env i (chunkPayloadAt file u i) 3 0 none j
          (Nat.ne_of_lt hj)

/-- Over a whole chunk loop, each chunk index is attempted at most 3 times. -/
theorem attemptCount_chunkLoop_le (env : Env) (file : JSFile) (u : String) (n : Nat) :
    ∀ rem i j, attemptCount j (chunkLoop env file u n rem i).1 ≤ 3 := by
  intro rem
  induction rem with
  | zero => intro i j; simp [chunkLoop, attemptCount]
  | succ rem ih =>
      intro i j
      rw [chunkLoop_succ]
      rcases hres : (retryLoop env i (chunkPayloadAt file u i) 3 0 none).2 with _ | err
      · simp only [hres]
        have hc := attemptCount_append j (retryLoop env i (chunkPayloadAt file u i) 3 0 none).1
          (Event.progress (progressOf i n) :: (chunkLoop env file u n rem (i + 1)).1)
        rw [hc]
        have h2 : attemptCount j (Event.progress (progressOf i n)
            :: (chunkLoop env file u n rem (i + 1)).1)
            = attemptCount j (chunkLoop env file u n rem (i + 1)).1 := by
          simp [attemptCount, List.filter, isChunkReqFor]
        rcases Nat.lt_or_ge j (i + 1) with hj | hj
        · rcases Nat.eq_or_lt_of_le (Nat.lt_succ_iff.mp hj) with he | hlt
          · subst he
            have h1 := attemptCount_retryLoop_le env j (chunkPayloadAt file u j) 3 0 none j
            have h3 := attemptCount_chunkLoop_lt env file u n rem (j + 1) j (Nat.lt_succ_self j)
            omega
          · have h1 := attemptCount_retryLoop_ne env i (chunkPayloadAt file u i) 3 0 none j
              (Nat.ne_of_lt hlt)
            have h3 := ih (i + 1) j
            omega
        · have h1 := attemptCount_retryLoop_ne env i (chunkPayloadAt file u i) 3 0 none j
            (by omega)
          have h3 := ih (i + 1) j
          omega
      · simp only [hres]
        exact attemptCount_retryLoop_le env i (chunkPayloadAt file u i) 3 0 none j

/-- Every chunk request emitted by the chunk loop carries exactly the payload
built for its chunk index from the captured upload url. -/
theorem chunkLoop_payload (env : Env) (file : JSFile) (u : String) (n : Nat) :
    ∀ rem i j p, Event.chunkReq j p ∈ (chunkLoop env file u n rem i).1 →
      p = chunkPayloadAt file u j := by
  intro rem
  induction rem with
  | zero => intro i j p hp; simp [chunkLoop] at hp
  | succ rem ih =>
      intro i j p hp
      rw [chunkLoop_succ] at hp
      rcases hres : (retryLoop env i (chunkPayloadAt file u i) 3 0 none).2 with _ | err
      · rw [hres] at hp
        simp only [List.mem_append, List.mem_cons] at hp
        rcases hp with hp | hp | hp
        · rcases retryLoop_events_shape env i (chunkPayloadAt file u i) 3 0 none _ hp
            with h1 | h1
          · cases h1
            rfl
          · cases h1
        · cases hp
        · exact ih (i + 1) j p hp
      · rw [hres] at hp
        rcases retryLoop_events_shape env i (chunkPayloadAt file u i) 3 0 none _ hp
          with h1 | h1
        · cases h1
          rfl
        · cases h1

/-- When the first attempt on every chunk succeeds, the chunk loop succeeds
and reports exactly the rounded progress value after each chunk, in index
order. -/
theorem chunkLoop_allOk (env : Env) (file : JSFile) (u : String) (n : Nat)
    (h : ∀ k, tryAttempt (env.attempt k 0) = none) :
    ∀ rem i, (chunkLoop env file u n rem i).2 = .ok () ∧
      progressEvents (chunkLoop env file u n rem i).1
        = (List.range rem).map (fun k => progressOf (i + k) n) := by
  intro rem
  induction rem with
  | zero => intro i; simp [chunkLoop, progressEvents]
  | succ rem ih =>
      intro i
      rw [chunkLoop_succ]
      have hret : retryLoop env i (chunkPayloadAt file u i) 3 0 none
          = ([Event.chunkReq i (chunkPayloadAt file u i)], none) :=
        retryLoop_ok env i (chunkPayloadAt file u i) 2 0 none (h i)
      rw [hret]
      constructor
      · exact (ih (i + 1)).1
      · have hrest := (ih (i + 1)).2
        simp only [progressEvents, List.filterMap_append, List.filterMap_cons,
          progressValue] at hrest ⊢
        rw [hrest]
        rw [List.range_succ_eq_map]
        simp only [List.map_cons, List.map_map, List.filterMap_nil, List.nil_append,
          Nat.add_zero]
        congr 1
        apply List.map_congr_left
        intro a _
        simp only [Function.comp_apply]
        congr 1
        omega

/-- Unfolding of uploadFileToScript when the init request succeeds with a
parseable non-HTML body carrying status success and an upload url. -/
theorem uploadFileToScript_goodInit (env : Env) (file : JSFile) (name : String)
    (ct : Option String) (j : RespBody) (u : String)
    (h1 : env.initFetch = .ok ⟨ct, .ok j⟩) (h2 : ctHtml ct = false)
    (h3 : j.status = "success") (h4 : j.url = some u) :
    uploadFileToScript env file name
      = (Event.initReq (initPayload name file.type)
          :: (chunkLoop env file u (totalChunks file.size) (totalChunks file.size) 0).1,
         (chunkLoop env file u (totalChunks file.size) (totalChunks file.size) 0).2) := by
  unfold uploadFileToScript
  rw [h1]
  simp [h2, h3, h4]


theorem uploadFileToScript_shape (env : Env) (file : JSFile) (name : String) :
    ∃ rest res, uploadFileToScript env file name
        = (Event.initReq (initPayload name file.type) :: rest, res) ∧
      (rest = [] ∨ ∃ u, rest = (chunkLoop env file u (totalChunks file.size)
          (totalChunks file.size) 0).1) := by
  unfold uploadFileToScript
  rcases env.initFetch with m | resp
  · exact ⟨[], .error m, rfl, Or.inl rfl⟩
  · rcases resp with ⟨ct, body⟩
    by_cases hct : ctHtml ct
    · exact ⟨[], .error "Script Permission Error: Received HTML instead of JSON. Ensure script is deployed to \x27Anyone\x27.", by simp [hct], Or.inl rfl⟩
    · rcases body with m | ij
      · exact ⟨[], .error m, by simp [hct], Or.inl rfl⟩
      · by_cases hst : ij.status = "success"
        · rcases hurl : ij.url with _ | u
          · exact ⟨[], .error (ij.message.getD "Failed to initialize upload session"),
              by simp [hct, hst, hurl], Or.inl rfl⟩
          · exact ⟨(chunkLoop env file u (totalChunks file.size) (totalChunks file.size) 0).1,
              (chunkLoop env file u (totalChunks file.size) (totalChunks file.size) 0).2,
              by simp [hct, hst, hurl], Or.inr ⟨u, rfl⟩⟩
        · exact ⟨[], .error (ij.message.getD "Failed to initialize upload session"),
            by simp [hct, hst], Or.inl rfl⟩

/-- Whatever the environment, no chunk index is requested more than 3 times
in a whole session. -/
theorem attemptCount_uploadFileToScript_le (env : Env) (file : JSFile) (name : String)
    (j : Nat) : attemptCount j (uploadFileToScript env file name).1 ≤ 3 := by
  rcases uploadFileToScript_shape env file name with ⟨rest, res, heq, hrest⟩
  rw [heq]
  have hcons : attemptCount j (Event.initReq (initPayload name file.type) :: rest)
      = attemptCount j rest := by
    simp [attemptCount, List.filter_cons, isChunkReqFor]
  rw [hcons]
  rcases hrest with h | ⟨u, h⟩
  · subst h; simp [attemptCount]
  · subst h
    exact attemptCount_chunkLoop_le env file u (totalChunks file.size)
      (totalChunks file.size) 0 j

/-- When the first three attempts on chunk i all fail, the retry loop makes
exactly three attempts with the identical payload, sleeping 2000 ms between
consecutive attempts, and surfaces the third (last) error. -/
theorem retryLoop_allFail (env : Env) (i : Nat) (e0 e1 e2 : String)
    (h0 : tryAttempt (env.attempt i 0) = some e0)
    (h1 : tryAttempt (env.attempt i 1) = some e1)
    (h2 : tryAttempt (env.attempt i 2) = some e2) :
    ∀ p, retryLoop env i p 3 0 none
      = ([Event.chunkReq i p, Event.sleep 2000, Event.chunkReq i p,
          Event.sleep 2000, Event.chunkReq i p], some e2) := by
  intro p
  have s0 := retryLoop_fail_cont env i p 2 0 none e0 h0 (by decide)
  have s1 := retryLoop_fail_cont env i p 1 1 (some e0) e1 h1 (by decide)
  have s2 := retryLoop_fail_last env i p 2 (some e1) e2 h2
  norm_num at s0 s1 s2
  rw [s0, s1, s2]

/-- Progress values are monotonically non-decreasing in the chunk index. -/
theorem progressOf_mono (i n : Nat) : progressOf i n ≤ progressOf (i + 1) n := by
  apply Nat.div_le_div_right
  omega

/-- After the final chunk of a nonempty session the reported progress is
exactly 100. -/
theorem progressOf_final (n : Nat) (hn : 0 < n) : progressOf (n - 1) n = 100 := by
  unfold progressOf
  have he : 200 * (n - 1 + 1) + n = 2 * n * 100 + n := by omega
  rw [he, Nat.mul_add_div (by omega)]
  rw [Nat.div_eq_of_lt (by omega)]

/-- C2: for every file size S, the chunk byte ranges produced by
uploadFileToScript (start = i * CHUNK_SIZE, end = min S (start + CHUNK_SIZE)
for i below totalChunks S) partition the interval from 0 to S exactly: they
are contiguous, non-overlapping, stay inside the file, cover every byte, and
the final chunk ends at S regardless of rounding. -/
theorem C2_chunk_ranges_partition (S : Nat) :
    (∀ i, i + 1 < totalChunks S → chunkEnd S i = chunkStart (i + 1)) ∧
    (∀ i j, i < j → j < totalChunks S → chunkEnd S i ≤ chunkStart j) ∧
    (∀ b, b < S → ∃ i, i < totalChunks S ∧ chunkStart i ≤ b ∧ b < chunkEnd S i) ∧
    (∀ i, i < totalChunks S → chunkEnd S i ≤ S) ∧
    (0 < totalChunks S → chunkEnd S (totalChunks S - 1) = S) := by
  have hC : CHUNK_SIZE = 5242880 := by norm_num [CHUNK_SIZE]
  simp only [totalChunks, chunkStart, chunkEnd, hC]
  refine ⟨?_, ?_, ?_, ?_, ?_⟩
  · intro i hi
    omega
  · intro i j hij hj
    have h1 : i * 5242880 + 5242880 ≤ j * 5242880 := by
      have : (i + 1) * 5242880 ≤ j * 5242880 := Nat.mul_le_mul_right _ hij
      omega
    omega
  · intro b hb
    refine ⟨b / 5242880, ?_, ?_, ?_⟩
    · omega
    · omega
    · omega
  · intro i _
    omega
  · intro hpos
    have h1 : (S + 5242880 - 1) / 5242880 * 5242880 < S + 5242880 := by omega
    have h2 : S ≤ (S + 5242880 - 1) / 5242880 * 5242880 := by omega
    omega

/-- C2 witness: a 5242881 byte file has two chunks; chunk 0 ends where
chunk 1 starts, and the last chunk ends at the file size. -/
theorem C2_witness :
    totalChunks 5242881 = 2 ∧ chunkEnd 5242881 0 = chunkStart 1 ∧
      chunkEnd 5242881 1 = 5242881 :=
  ⟨by decide, (C2_chunk_ranges_partition 5242881).1 0 (by decide),
   (C2_chunk_ranges_partition 5242881).2.2.2.2 (by decide)⟩

/-- C6 counterexample: for a zero byte file uploadFileToScript computes
Math.ceil(0 / CHUNK_SIZE) = 0 chunks, not the minimum of 1 the claim
states. -/
theorem C6_counterexample : totalChunks 0 = 0 ∧ totalChunks 0 ≠ 1 := by decide

/-- C6 (amended): the total chunk count equals the ceiling of
fileSize / CHUNK_SIZE with no minimum clamp: it is the least m with
fileSize at most m * CHUNK_SIZE, and a zero byte file yields 0 chunks
(no empty chunk is produced). -/
theorem C6_totalChunks_is_ceiling :
    (∀ S : Nat, S ≤ totalChunks S * CHUNK_SIZE ∧
      ∀ m : Nat, S ≤ m * CHUNK_SIZE → totalChunks S ≤ m) ∧
    totalChunks 0 = 0 := by
  constructor
  · intro S
    have hC : CHUNK_SIZE = 5242880 := by norm_num [CHUNK_SIZE]
    simp only [totalChunks, hC]
    constructor
    · omega
    · intro m hm
      omega
  · decide

/-- C6 witness: the ceiling characterisation evaluated for a 6000000 byte
file, whose chunk count is bounded by 2. -/
theorem C6_witness :
    6000000 ≤ totalChunks 6000000 * CHUNK_SIZE ∧ totalChunks 6000000 ≤ 2 :=
  ⟨(C6_totalChunks_is_ceiling.1 6000000).1,
   (C6_totalChunks_is_ceiling.1 6000000).2 2 (by decide)⟩

/-- C1 counterexample: in a session whose single chunk receives an explicit
status error body on the first attempt and success on the second, the trace
shows a second request for the same chunk after the backoff sleep (the error
consumed a retry attempt and was retried) and the session then succeeds, so
the explicit error status was not terminal for the session. -/
theorem C1_counterexample :
    uploadFileToScript envC1 file1 "f.mp4"
      = ([Event.initReq (initPayload "f.mp4" "video/mp4"),
          Event.chunkReq 0 (chunkPayload "U" "AA==" "bytes 0-0/1"),
          Event.sleep 2000,
          Event.chunkReq 0 (chunkPayload "U" "AA==" "bytes 0-0/1"),
          Event.progress 100], Except.ok ()) ∧
    attemptCount 0 (uploadFileToScript envC1 file1 "f.mp4").1 = 2 := by decide

/-- C1 (amended): a response body with explicit status error is treated like
any other failed attempt: it is caught by the retry logic, consumes one of
the three attempts, and after the fixed 2000 ms backoff the chunk is
resubmitted; when the next attempt succeeds the session continues. -/
theorem C1_appError_is_retried (env : Env) (i c : Nat) (b : RespBody)
    (p : List (String × String))
    (h0 : env.attempt i 0 = .response true c (.ok b)) (hb : b.status = "error")
    (h1 : tryAttempt (env.attempt i 1) = none) :
    retryLoop env i p 3 0 none
      = ([Event.chunkReq i p, Event.sleep 2000, Event.chunkReq i p], none) := by
  have e0 : tryAttempt (env.attempt i 0) = some (b.message.getD "") := by
    rw [h0]
    simp [tryAttempt, hb]
  have s0 := retryLoop_fail_cont env i p 2 0 none (b.message.getD "") e0 (by decide)
  have s1 := retryLoop_ok env i p 1 1 (some (b.message.getD "")) h1
  norm_num at s0 s1
  rw [s0, s1]

/-- C1 witness: the amended behaviour evaluated in the concrete environment
envC1 for chunk 0 with an empty payload. -/
theorem C1_witness :
    retryLoop envC1 0 [] 3 0 none
      = ([Event.chunkReq 0 [], Event.sleep 2000, Event.chunkReq 0 []], none) :=
  C1_appError_is_retried envC1 0 200
    { status := "error", message := some "rejected", url := none } [] (by decide)
    rfl (by decide)

/-- C4: per chunk, delivery is attempted at most 3 times in any session;
when the three attempts of chunk i all fail, the retry loop makes exactly
three attempts with the identical payload, sleeping a fixed 2000 ms between
consecutive attempts, and the chunk loop then aborts the session at chunk i
surfacing the last observed error. -/
theorem C4_retry_policy (env : Env) (i : Nat) (e0 e1 e2 : String)
    (h0 : tryAttempt (env.attempt i 0) = some e0)
    (h1 : tryAttempt (env.attempt i 1) = some e1)
    (h2 : tryAttempt (env.attempt i 2) = some e2) :
    (∀ p, retryLoop env i p 3 0 none
        = ([Event.chunkReq i p, Event.sleep 2000, Event.chunkReq i p,
            Event.sleep 2000, Event.chunkReq i p], some e2)) ∧
    (∀ file u n rem, chunkLoop env file u n (rem + 1) i
        = ([Event.chunkReq i (chunkPayloadAt file u i), Event.sleep 2000,
            Event.chunkReq i (chunkPayloadAt file u i), Event.sleep 2000,
            Event.chunkReq i (chunkPayloadAt file u i)], .error e2)) ∧
    (∀ env2 file2 name2 j, attemptCount j (uploadFileToScript env2 file2 name2).1 ≤ 3)
    := by
  have hall := retryLoop_allFail env i e0 e1 e2 h0 h1 h2
  refine ⟨hall, ?_, ?_⟩
  · intro file u n rem
    rw [chunkLoop_succ, hall (chunkPayloadAt file u i)]
  · intro env2 file2 name2 j
    exact attemptCount_uploadFileToScript_le env2 file2 name2 j

/-- C4 witness: the policy evaluated in envFail, where every attempt of
chunk 0 rejects with a distinct message: three attempts, 2000 ms sleeps,
and the last error err2 surfaced. -/
theorem C4_witness :
    retryLoop envFail 0 [] 3 0 none
      = ([Event.chunkReq 0 [], Event.sleep 2000, Event.chunkReq 0 [],
          Event.sleep 2000, Event.chunkReq 0 []], some "err2") ∧
    attemptCount 0 (uploadFileToScript envFail file1 "f.mp4").1 ≤ 3 :=
  ⟨(C4_retry_policy envFail 0 "err0" "err1" "err2" (by decide) (by decide)
      (by decide)).1 [],
   (C4_retry_policy envFail 0 "err0" "err1" "err2" (by decide) (by decide)
      (by decide)).2.2 envFail file1 "f.mp4" 0⟩

/-- C5: when the init response carries a content type containing text/html,
the session fails immediately with the fixed permission error, for every
possible body (the body is never parsed), and the trace contains the init
request only: zero chunk requests are sent. -/
theorem C5_html_init_fatal (file : JSFile) (name ct : String)
    (body : Except String RespBody) (att : Nat → Nat → AttemptOutcome)
    (h : ctHtml (some ct) = true) :
    uploadFileToScript ⟨.ok ⟨some ct, body⟩, att⟩ file name
      = ([Event.initReq (initPayload name file.type)],
         .error "Script Permission Error: Received HTML instead of JSON. Ensure script is deployed to \x27Anyone\x27.") ∧
    countChunkReqs (uploadFileToScript ⟨.ok ⟨some ct, body⟩, att⟩ file name).1 = 0 := by
  have he : uploadFileToScript ⟨.ok ⟨some ct, body⟩, att⟩ file name
      = ([Event.initReq (initPayload name file.type)],
         .error "Script Permission Error: Received HTML instead of JSON. Ensure script is deployed to \x27Anyone\x27.") := by
    unfold uploadFileToScript
    simp [h]
  refine ⟨he, ?_⟩
  rw [he]
  rfl

/-- C5 witness: a text/html init response with a perfectly parseable success
body still fails the session with the permission error and zero chunk
requests. -/
theorem C5_witness :
    uploadFileToScript ⟨.ok ⟨some "text/html; charset=UTF-8",
        .ok ⟨"success", none, some "U"⟩⟩, envOk.attempt⟩ file1 "f.mp4"
      = ([Event.initReq (initPayload "f.mp4" "video/mp4")],
         .error "Script Permission Error: Received HTML instead of JSON. Ensure script is deployed to \x27Anyone\x27.") ∧
    countChunkReqs (uploadFileToScript ⟨.ok ⟨some "text/html; charset=UTF-8",
        .ok ⟨"success", none, some "U"⟩⟩, envOk.attempt⟩ file1 "f.mp4").1 = 0 :=
  C5_html_init_fatal file1 "f.mp4" "text/html; charset=UTF-8"
    (.ok ⟨"success", none, some "U"⟩) envOk.attempt (by decide)

/-- C7: the upload url captured from the init response (the first response
of the session) is attached to every chunk payload of the session: every
chunk request in the trace carries the uploadUrl key bound to that url. -/
theorem C7_uploadUrl_on_every_chunk (env : Env) (file : JSFile) (name : String)
    (ct : Option String) (j : RespBody) (u : String)
    (h1 : env.initFetch = .ok ⟨ct, .ok j⟩) (h2 : ctHtml ct = false)
    (h3 : j.status = "success") (h4 : j.url = some u) :
    ∀ i p, Event.chunkReq i p ∈ (uploadFileToScript env file name).1 →
      ("uploadUrl", u) ∈ p := by
  rw [uploadFileToScript_goodInit env file name ct j u h1 h2 h3 h4]
  intro i p hp
  simp only [List.mem_cons] at hp
  rcases hp with hp | hp
  · cases hp
  · have := chunkLoop_payload env file u (totalChunks file.size)
      (totalChunks file.size) 0 i p hp
    subst this
    simp [chunkPayloadAt, chunkPayload]

/-- C7 witness: in the concrete all-success session the single chunk request
carries the captured url U. -/
theorem C7_witness :
    ("uploadUrl", "U") ∈ chunkPayload "U" "AA==" "bytes 0-0/1" :=
  C7_uploadUrl_on_every_chunk envOk file1 "f.mp4" (some "application/json")
    ⟨"success", none, some "U"⟩ "U" rfl (by decide) rfl rfl 0
    (chunkPayload "U" "AA==" "bytes 0-0/1") (by decide)

/-- C8 counterexample: in a concrete single chunk session the chunk payload
carries only the keys action, uploadUrl, base64 and range: it has no
filename, mimeType, chunkIndex or totalChunks field, and its range value
carries the bytes prefix. -/
theorem C8_counterexample :
    uploadFileToScript envOk file1 "f.mp4"
      = ([Event.initReq (initPayload "f.mp4" "video/mp4"),
          Event.chunkReq 0 (chunkPayload "U" "AA==" "bytes 0-0/1"),
          Event.progress 100], Except.ok ()) ∧
    (chunkPayload "U" "AA==" "bytes 0-0/1").lookup "filename" = none ∧
    (chunkPayload "U" "AA==" "bytes 0-0/1").lookup "mimeType" = none ∧
    (chunkPayload "U" "AA==" "bytes 0-0/1").lookup "chunkIndex" = none ∧
    (chunkPayload "U" "AA==" "bytes 0-0/1").lookup "totalChunks" = none ∧
    (chunkPayload "U" "AA==" "bytes 0-0/1").map Prod.fst
      = ["action", "uploadUrl", "base64", "range"] := by decide

/-- C8 (amended): every chunk payload consists of exactly the keys action,
uploadUrl, base64 and range, where uploadUrl is the session identifier from
initialisation, base64 is the encoding of the chunk byte range, and range is
the descriptor bytes start-(end-1)/fileSize with an inclusive end offset;
the destination filename and media type travel only in the init payload,
and the chunk index and total chunk count are not part of any payload. -/
theorem C8_chunk_payload_contents (env : Env) (file : JSFile) (name : String)
    (ct : Option String) (j : RespBody) (u : String)
    (h1 : env.initFetch = .ok ⟨ct, .ok j⟩) (h2 : ctHtml ct = false)
    (h3 : j.status = "success") (h4 : j.url = some u) :
    (uploadFileToScript env file name).1.head?
      = some (Event.initReq (initPayload name file.type)) ∧
    ∀ i p, Event.chunkReq i p ∈ (uploadFileToScript env file name).1 →
      p = chunkPayload u
            (blobToBase64 (file.slice (chunkStart i) (chunkEnd file.size i)))
            (rangeHeader (chunkStart i) (chunkEnd file.size i) file.size) ∧
      p.map Prod.fst = ["action", "uploadUrl", "base64", "range"] := by
  rw [uploadFileToScript_goodInit env file name ct j u h1 h2 h3 h4]
  constructor
  · rfl
  · intro i p hp
    simp only [List.mem_cons] at hp
    rcases hp with hp | hp
    · cases hp
    · have he := chunkLoop_payload env file u (totalChunks file.size)
        (totalChunks file.size) 0 i p hp
      subst he
      exact ⟨rfl, rfl⟩

/-- C8 witness: the amended payload description evaluated in the concrete
single chunk session. -/
theorem C8_witness :
    chunkPayload "U" "AA==" "bytes 0-0/1"
      = chunkPayload "U"
          (blobToBase64 (file1.slice (chunkStart 0) (chunkEnd file1.size 0)))
          (rangeHeader (chunkStart 0) (chunkEnd file1.size 0) file1.size) ∧
    (chunkPayload "U" "AA==" "bytes 0-0/1").map Prod.fst
      = ["action", "uploadUrl", "base64", "range"] :=
  (C8_chunk_payload_contents envOk file1 "f.mp4" (some "application/json")
    ⟨"success", none, some "U"⟩ "U" rfl (by decide) rfl rfl).2 0
    (chunkPayload "U" "AA==" "bytes 0-0/1") (by decide)

/-- C10: for a zero byte file the computed total chunk count is 0, so after
a successful init request the session sends no chunk requests, reports no
progress value at all, and resolves successfully. -/
theorem C10_zero_byte_session (env : Env) (file : JSFile) (name : String)
    (ct : Option String) (j : RespBody) (u : String) (hsize : file.size = 0)
    (h1 : env.initFetch = .ok ⟨ct, .ok j⟩) (h2 : ctHtml ct = false)
    (h3 : j.status = "success") (h4 : j.url = some u) :
    totalChunks file.size = 0 ∧
    uploadFileToScript env file name
      = ([Event.initReq (initPayload name file.type)], Except.ok ()) ∧
    progressEvents (uploadFileToScript env file name).1 = [] := by
  have hz : totalChunks file.size = 0 := by rw [hsize]; decide
  have he := uploadFileToScript_goodInit env file name ct j u h1 h2 h3 h4
  rw [hz] at he
  refine ⟨hz, ?_, ?_⟩
  · rw [he]; rfl
  · rw [he]; rfl

/-- C10 witness: the zero byte session evaluated in the concrete
environment envOk. -/
theorem C10_witness :
    totalChunks zeroFile.size = 0 ∧
    uploadFileToScript envOk zeroFile "f.mp4"
      = ([Event.initReq (initPayload "f.mp4" "video/mp4")], Except.ok ()) ∧
    progressEvents (uploadFileToScript envOk zeroFile "f.mp4").1 = [] :=
  C10_zero_byte_session envOk zeroFile "f.mp4" (some "application/json")
    ⟨"success", none, some "U"⟩ "U" rfl rfl (by decide) rfl rfl

set_option maxRecDepth 4000 in
/-- C3 counterexample: a 1310720000 byte file yields 250 chunks; in the
all-success session the reported progress values are exactly the rounded
values for chunks 0..249, and the value reported after chunk 248 - which is
not the final chunk - is already 100. -/
theorem C3_counterexample :
    totalChunks bigFile.size = 250 ∧
    progressEvents (uploadFileToScript envOk bigFile "f.mp4").1
      = (List.range 250).map (fun k => progressOf k 250) ∧
    ((List.range 250).map (fun k => progressOf k 250))[248]? = some 100 ∧
    (248 : Nat) + 1 ≠ 250 := by
  have hn : totalChunks bigFile.size = 250 := by decide
  refine ⟨hn, ?_, by decide, by decide⟩
  rw [uploadFileToScript_goodInit envOk bigFile "f.mp4" (some "application/json")
    ⟨"success", none, some "U"⟩ "U" rfl (by decide) rfl rfl]
  have hall : ∀ k, tryAttempt (envOk.attempt k 0) = none := fun k => rfl
  have h := (chunkLoop_allOk envOk bigFile "U" (totalChunks bigFile.size) hall
    (totalChunks bigFile.size) 0).2
  have hcons : progressEvents (Event.initReq (initPayload "f.mp4" bigFile.type)
      :: (chunkLoop envOk bigFile "U" (totalChunks bigFile.size)
            (totalChunks bigFile.size) 0).1)
      = progressEvents (chunkLoop envOk bigFile "U" (totalChunks bigFile.size)
            (totalChunks bigFile.size) 0).1 := by
    simp [progressEvents, progressValue]
  rw [hcons, h, hn]
  simp

/-- C3 (amended): after each successful chunk i the reported progress equals
the rounded value for i of totalChunks - in an all-success session the
reported values are exactly those for chunks 0..totalChunks-1 in order; the
values are monotonically non-decreasing in the chunk index; and the value
after the final chunk is exactly 100. The value 100 can, however, also be
reported before the final chunk, as soon as the rounded value reaches 100. -/
theorem C3_progress_reporting (env : Env) (file : JSFile) (name : String)
    (ct : Option String) (j : RespBody) (u : String)
    (h1 : env.initFetch = .ok ⟨ct, .ok j⟩) (h2 : ctHtml ct = false)
    (h3 : j.status = "success") (h4 : j.url = some u)
    (hall : ∀ k, tryAttempt (env.attempt k 0) = none) :
    progressEvents (uploadFileToScript env file name).1
      = (List.range (totalChunks file.size)).map
          (fun k => progressOf k (totalChunks file.size)) ∧
    (∀ i n : Nat, progressOf i n ≤ progressOf (i + 1) n) ∧
    (∀ n : Nat, 0 < n → progressOf (n - 1) n = 100) := by
  refine ⟨?_, progressOf_mono, progressOf_final⟩
  rw [uploadFileToScript_goodInit env file name ct j u h1 h2 h3 h4]
  have h := (chunkLoop_allOk env file u (totalChunks file.size) hall
    (totalChunks file.size) 0).2
  have hcons : progressEvents (Event.initReq (initPayload name file.type)
      :: (chunkLoop env file u (totalChunks file.size)
            (totalChunks file.size) 0).1)
      = progressEvents (chunkLoop env file u (totalChunks file.size)
            (totalChunks file.size) 0).1 := by
    simp [progressEvents, progressValue]
  rw [hcons, h]
  simp

/-- C3 witness: the progress description evaluated in the concrete
single chunk all-success session. -/
theorem C3_witness :
    progressEvents (uploadFileToScript envOk file1 "f.mp4").1
      = (List.range (totalChunks file1.size)).map
          (fun k => progressOf k (totalChunks file1.size)) ∧
    (∀ i n : Nat, progressOf i n ≤ progressOf (i + 1) n) ∧
    (∀ n : Nat, 0 < n → progressOf (n - 1) n = 100) :=
  C3_progress_reporting envOk file1 "f.mp4" (some "application/json")
    ⟨"success", none, some "U"⟩ "U" rfl (by decide) rfl rfl (fun k => rfl)

/-- C9 counterexample: when the session fails with the diagnostic message
Failed to fetch, the displayed message is the category label with fixed
guidance; the underlying diagnostic message is not displayed, contradicting
the claim that the category label is shown together with the underlying
diagnostic. The fallback download still uses the renamed filename. -/
theorem C9_counterexample :
    (handleUploadFailure "Failed to fetch" "x.mp4").displayedMessage
      = "Connection Error. Could not connect to Google Drive. Check internet or Script permissions." ∧
    includes (handleUploadFailure "Failed to fetch" "x.mp4").displayedMessage
      "Failed to fetch" = false ∧
    (handleUploadFailure "Failed to fetch" "x.mp4").downloadFilename = "x.mp4" := by
  decide

/-- C9 (amended): on any session failure the fallback save always receives
the originally intended renamed filename; the displayed message is the
category label followed by the underlying diagnostic message only for
script-configuration errors; for connection errors it is the label followed
by fixed guidance that replaces the underlying message; any other error is
displayed as the raw message followed by a generic fallback note, with no
category label. -/
theorem C9_failure_handling (e r : String) :
    (handleUploadFailure e r).downloadFilename = r ∧
    ((includes e "Failed to fetch" || includes e "NetworkError") = true →
      (handleUploadFailure e r).displayedMessage
        = "Connection Error. Could not connect to Google Drive. Check internet or Script permissions.") ∧
    ((includes e "Failed to fetch" || includes e "NetworkError") = false →
     (includes e "Drive Init Failed" || includes e "Auth Token Invalid"
        || includes e "Exception" || includes e "Permission"
        || includes e "Folder Error" || includes e "Folder ID") = true →
      (handleUploadFailure e r).displayedMessage
        = "Script Configuration Error. " ++ e) ∧
    ((includes e "Failed to fetch" || includes e "NetworkError") = false →
     (includes e "Drive Init Failed" || includes e "Auth Token Invalid"
        || includes e "Exception" || includes e "Permission"
        || includes e "Folder Error" || includes e "Folder ID") = false →
      (handleUploadFailure e r).displayedMessage
        = e ++ ". Auto-upload failed. File downloaded for manual submission.") := by
  refine ⟨rfl, ?_, ?_, ?_⟩
  · intro hnet
    simp [handleUploadFailure, hnet]
  · intro hnet hcfg
    simp [handleUploadFailure, hnet, hcfg]
  · intro hnet hcfg
    simp only [handleUploadFailure, hnet, hcfg, Bool.false_eq_true, if_false]
    rw [String.append_assoc]
    congr 1

/-- C9 witness: a configuration error message is displayed with its category
label and the underlying diagnostic, and the fallback download receives the
renamed filename. -/
theorem C9_witness :
    (handleUploadFailure "Exception: Folder ID missing" "v.mp4").downloadFilename
      = "v.mp4" ∧
    (handleUploadFailure "Exception: Folder ID missing" "v.mp4").displayedMessage
      = "Script Configuration Error. Exception: Folder ID missing" :=
  ⟨(C9_failure_handling "Exception: Folder ID missing" "v.mp4").1,
   (C9_failure_handling "Exception: Folder ID missing" "v.mp4").2.2.1 (by decide)
     (by decide)⟩
